import Mathlib

/-!
Shallow embedding of `src/lambda_function.py` from kistlerk19/aws-auto-db-snapshot:
a single AWS Lambda handler that creates an RDS snapshot, waits for it to become
available, and copies it to a destination region.

Python exceptions carrying a message are embedded as `Except String`; the three
outbound boto3 calls are a `Provider` record of call behaviours; the handler is
instrumented to also return the list of requests it actually issued, so that
claims about which calls happen (and with which arguments) can be stated.
-/

namespace AutoDbSnapshot

/-- Module-level configuration constant `source_region` from the source. -/
def source_region : String := "source-region"

/-- Module-level configuration constant `destination_region` from the source. -/
def destination_region : String := "destination-region"

/-- Module-level configuration constant `db_instance_identifier` from the source. -/
def db_instance_identifier : String := "mainline-pro-db"

/-- Module-level configuration constant `account_id` from the source. -/
def account_id : String := "add-your-aws-account-id-here"

/-- The hard-coded `KmsKeyId` literal passed to `copy_db_snapshot` in the source. -/
def kms_key_id : String :=
  "arn:aws:kms:eu-central-1:412381770444:key/c6d78a6d-854d-4e15-9fc7-b4ee1c15131c"

/-- A UTC datetime with second resolution, the value of `datetime.utcnow()`. -/
structure DateTime where
  year : Nat
  month : Nat
  day : Nat
  hour : Nat
  minute : Nat
  second : Nat
deriving Repr, DecidableEq

/-- Zero-pad the decimal rendering of `n` on the left to `width` characters,
as Python `strftime` does for each field. -/
def zeroPad (width : Nat) (n : Nat) : String :=
  let s := toString n
  String.mk (List.replicate (width - s.length) '0') ++ s

/-- Embedding of `datetime.utcnow().strftime('%Y%m%d-%H%M%S')` applied to a
given datetime value: four-digit year, two-digit month, day, hour, minute,
second, with a dash between the date and time parts. -/
def strftimeYmdHMS (d : DateTime) : String :=
  zeroPad 4 d.year ++ zeroPad 2 d.month ++ zeroPad 2 d.day ++ "-" ++
    zeroPad 2 d.hour ++ zeroPad 2 d.minute ++ zeroPad 2 d.second

/-- The module-level mutable-free state computed once when the Python module is
loaded: the timestamp string and the two names derived from it. -/
structure ModuleState where
  timestamp : String
  snapshot_name : String
  copy_name : String
deriving Repr, DecidableEq

/-- Embedding of the module-level statements of the source, executed once at
module load time with `now = datetime.utcnow()`:
`timestamp = now.strftime('%Y%m%d-%H%M%S')`,
`snapshot_name = f'rds-auto-snapshot-mainline-\x7btimestamp\x7d'`,
`copy_name = f'rds-auto-copy-mainline-\x7btimestamp\x7d'`. -/
def moduleInit (now : DateTime) : ModuleState :=
  let timestamp := strftimeYmdHMS now
  { timestamp := timestamp
  , snapshot_name := "rds-auto-snapshot-mainline-" ++ timestamp
  , copy_name := "rds-auto-copy-mainline-" ++ timestamp }

/-- Arguments of the `rds.create_db_snapshot` call. -/
structure CreateRequest where
  dbInstanceIdentifier : String
  dbSnapshotIdentifier : String
deriving Repr, DecidableEq

/-- Arguments of the `waiter.wait` call for the `db_snapshot_available` waiter:
the snapshot identifier and the `WaiterConfig` fields `Delay` and `MaxAttempts`. -/
structure WaitRequest where
  dbSnapshotIdentifier : String
  delay : Nat
  maxAttempts : Nat
deriving Repr, DecidableEq

/-- Arguments of the `dest_rds.copy_db_snapshot` call. -/
structure CopyRequest where
  sourceDBSnapshotIdentifier : String
  targetDBSnapshotIdentifier : String
  sourceRegion : String
  kmsKeyId : String
deriving Repr, DecidableEq

/-- A provider call actually issued by the handler, recorded in order. -/
inductive Call where
  | createSnapshot (r : CreateRequest)
  | waitAvailable (r : WaitRequest)
  | copySnapshot (r : CopyRequest)
deriving Repr, DecidableEq

/-- Behaviour of the external RDS provider for one invocation: each outbound
call either returns normally (`.ok ()`) or raises an exception whose Python
`str(e)` message is the `.error` payload. -/
structure Provider where
  createResult : CreateRequest → Except String Unit
  waitResult : WaitRequest → Except String Unit
  copyResult : CopyRequest → Except String Unit

/-- HTTP-style result record returned by the handler:
`\x7b "statusCode": ..., "body": ... \x7d`. -/
structure Response where
  statusCode : Nat
  body : String
deriving Repr, DecidableEq

/-- The create request the handler issues, as written in the source:
`DBInstanceIdentifier=db_instance_identifier, DBSnapshotIdentifier=snapshot_name`. -/
def createRequestOf (st : ModuleState) : CreateRequest :=
  ⟨db_instance_identifier, st.snapshot_name⟩

/-- The wait request the handler issues, as written in the source:
`DBSnapshotIdentifier=snapshot_name, WaiterConfig=\x7b'Delay': 30, 'MaxAttempts': 10\x7d`. -/
def waitRequestOf (st : ModuleState) : WaitRequest :=
  ⟨st.snapshot_name, 30, 10⟩

/-- The fully-qualified source snapshot reference built in the source:
`snapshot_arn = f'arn:aws:rds:\x7bsource_region\x7d:\x7baccount_id\x7d:snapshot:\x7bsnapshot_name\x7d'`. -/
def snapshot_arn (st : ModuleState) : String :=
  "arn:aws:rds:" ++ source_region ++ ":" ++ account_id ++ ":snapshot:" ++ st.snapshot_name

/-- The copy request the handler issues, as written in the source:
`SourceDBSnapshotIdentifier=snapshot_arn, TargetDBSnapshotIdentifier=copy_name,
SourceRegion=source_region, KmsKeyId='arn:aws:kms:eu-central-1:...'`. -/
def copyRequestOf (st : ModuleState) : CopyRequest :=
  ⟨snapshot_arn st, st.copy_name, source_region, kms_key_id⟩

/-- Embedding of `lambda_handler(event, context)`.  The `event` and `context`
parameters are taken at arbitrary types because the Python body never reads
them.  The whole body sits inside one `try/except Exception` boundary: each
provider call that raises short-circuits into the
`\x7b"statusCode": 500, "body": f"Failed: \x7bstr(e)\x7d"\x7d` branch; if all three return,
the handler returns status 200 with the success message.  The second component
is the ordered list of provider requests actually issued. -/
def lambda_handler {E C : Type} (st : ModuleState) (p : Provider)
    (event : E) (context : C) : Response × List Call :=
  let createReq := createRequestOf st
  match p.createResult createReq with
  | .error e => (⟨500, "Failed: " ++ e⟩, [.createSnapshot createReq])
  | .ok _ =>
    let waitReq := waitRequestOf st
    match p.waitResult waitReq with
    | .error e =>
        (⟨500, "Failed: " ++ e⟩, [.createSnapshot createReq, .waitAvailable waitReq])
    | .ok _ =>
      let copyReq := copyRequestOf st
      match p.copyResult copyReq with
      | .error e =>
          (⟨500, "Failed: " ++ e⟩,
           [.createSnapshot createReq, .waitAvailable waitReq, .copySnapshot copyReq])
      | .ok _ =>
          (⟨200,
            "Snapshot " ++ st.snapshot_name ++ " created and copied as " ++
              st.copy_name ++ " to " ++ destination_region⟩,
           [.createSnapshot createReq, .waitAvailable waitReq, .copySnapshot copyReq])

/-- Whether a recorded call is a copy-snapshot request. -/
def isCopyCall : Call → Bool
  | .copySnapshot _ => true
  | _ => false

/-- Whether the trace of an invocation contains any copy-snapshot request. -/
def copyIssued (calls : List Call) : Bool := calls.any isCopyCall

/-- The snapshot identifier of the first create-snapshot request in a trace. -/
def createdSnapshotName : List Call → Option String
  | Call.createSnapshot r :: _ => some r.dbSnapshotIdentifier
  | _ => none

/-- The target identifier of the first copy-snapshot request in a trace. -/
def copyTargetName : List Call → Option String
  | [] => none
  | Call.copySnapshot r :: _ => some r.targetDBSnapshotIdentifier
  | _ :: rest => copyTargetName rest

/-- Split a character list on a separator character; always returns at least
one (possibly empty) field. -/
def splitOnChar (c : Char) : List Char → List (List Char)
  | [] => [[]]
  | x :: xs =>
      let r := splitOnChar c xs
      if x = c then [] :: r
      else
        match r with
        | [] => [[x]]
        | y :: ys => (x :: y) :: ys

/-- The region component of an AWS ARN (`arn:PARTITION:SERVICE:REGION:...`),
the fourth colon-separated field. -/
def arnRegion (arn : String) : String :=
  String.mk (((splitOnChar ':' arn.data).drop 3).headD [])

/-- Modelled from the spec: the provider-furnished waiter primitive
(`boto3`'s `db_snapshot_available` waiter), whose implementation is not part of
this repository.  Per the spec it is: repeat at fixed intervals, query the
snapshot status; if "available", stop; if the maximum attempt count is
exceeded, fail with a timeout.  `status i` is the status reported by the
i-th poll (0-indexed); `fuel` is the number of attempts remaining; `i` is the
index of the next poll.  On success it returns the number of polls used. -/
def pollFrom (status : Nat → String) : Nat → Nat → Except String Nat
  | _, 0 => .error "timeout"
  | i, fuel + 1 =>
      if status i = "available" then .ok (i + 1)
      else pollFrom status (i + 1) fuel

/-- Modelled from the spec: the waiter run from the first poll with
`maxAttempts` attempts available. -/
def pollUntilAvailable (status : Nat → String) (maxAttempts : Nat) : Except String Nat :=
  pollFrom status 0 maxAttempts

/-- A provider whose three calls all succeed. -/
def pAllOk : Provider :=
  ⟨fun _ => .ok (), fun _ => .ok (), fun _ => .ok ()⟩

/-- A provider whose create call raises with message "boom". -/
def pCreateFails : Provider :=
  ⟨fun _ => .error "boom", fun _ => .ok (), fun _ => .ok ()⟩

/-- A provider whose wait call raises with message "timeout". -/
def pWaitFails : Provider :=
  ⟨fun _ => .ok (), fun _ => .error "timeout", fun _ => .ok ()⟩

/-- A provider whose copy call raises with message "copy denied". -/
def pCopyFails : Provider :=
  ⟨fun _ => .ok (), fun _ => .ok (), fun _ => .error "copy denied"⟩

/-- A sample module-load instant used for concrete evaluations. -/
def d0 : DateTime := ⟨2025, 1, 1, 0, 0, 0⟩

/-! ## Helper lemmas -/

/-- Any copy-snapshot request found in a trace of the handler is exactly the
one the source constructs. -/
theorem mem_copy_eq {E C : Type} (st : ModuleState) (p : Provider)
    (event : E) (context : C) (r : CopyRequest)
    (h : Call.copySnapshot r ∈ (lambda_handler st p event context).2) :
    r = copyRequestOf st := by
  rcases hc : p.createResult (createRequestOf st) with e | u
  · simp [lambda_handler, hc] at h
  · rcases hw : p.waitResult (waitRequestOf st) with e | u'
    · simp [lambda_handler, hc, hw] at h
    · rcases hcp : p.copyResult (copyRequestOf st) with e | u''
      · simp [lambda_handler, hc, hw, hcp] at h
        exact h
      · simp [lambda_handler, hc, hw, hcp] at h
        exact h

/-- If the waiter's success result is `.ok n`, then `n` polls were used,
`n` is within the attempt budget, and the last poll reported "available". -/
theorem pollFrom_ok_bound (status : Nat → String) :
    ∀ fuel i n, pollFrom status i fuel = .ok n →
      n ≤ i + fuel ∧ status (n - 1) = "available" := by
  intro fuel
  induction fuel with
  | zero => intro i n h; simp [pollFrom] at h
  | succ fuel ih =>
    intro i n h
    by_cases hs : status i = "available"
    · simp [pollFrom, hs] at h
      subst h
      exact ⟨by omega, by simpa using hs⟩
    · simp [pollFrom, hs] at h
      obtain ⟨h1, h2⟩ := ih (i + 1) n h
      exact ⟨by omega, h2⟩

/-- If no poll in the budget reports "available", the waiter times out. -/
theorem pollFrom_timeout (status : Nat → String) :
    ∀ fuel i, (∀ j, i ≤ j → j < i + fuel → status j ≠ "available") →
      pollFrom status i fuel = .error "timeout" := by
  intro fuel
  induction fuel with
  | zero => intro i _; rfl
  | succ fuel ih =>
    intro i h
    have hs : status i ≠ "available" := h i le_rfl (by omega)
    simp only [pollFrom, if_neg hs]
    exact ih (i + 1) fun j hj1 hj2 => h j (by omega) (by omega)

/-- If some poll within the budget reports "available", the waiter succeeds
within the budget. -/
theorem pollFrom_success (status : Nat → String) :
    ∀ fuel i, (∃ j, i ≤ j ∧ j < i + fuel ∧ status j = "available") →
      ∃ n, n ≤ i + fuel ∧ pollFrom status i fuel = .ok n := by
  intro fuel
  induction fuel with
  | zero =>
    intro i h
    obtain ⟨j, h1, h2, _⟩ := h
    omega
  | succ fuel ih =>
    intro i h
    obtain ⟨j, h1, h2, h3⟩ := h
    by_cases hs : status i = "available"
    · exact ⟨i + 1, by omega, by simp [pollFrom, hs]⟩
    · have hji : j ≠ i := fun e => hs (e ▸ h3)
      obtain ⟨n, hn1, hn2⟩ := ih (i + 1) ⟨j, by omega, by omega, h3⟩
      exact ⟨n, by omega, by simp only [pollFrom, if_neg hs]; exact hn2⟩

/-! ## Claim theorems -/

/-- C1: for every invocation, if any of the three provider calls
(create-snapshot, wait-for-available, copy-snapshot) raises an exception with
message `e`, `lambda_handler` returns a record with statusCode 500 and body
exactly `"Failed: " ++ e`, regardless of which step raised it. -/
theorem C1_uniform_failure_wrapping {E C : Type} (st : ModuleState) (p : Provider)
    (event : E) (context : C) (e : String)
    (h : p.createResult (createRequestOf st) = .error e
      ∨ (p.createResult (createRequestOf st) = .ok ()
          ∧ p.waitResult (waitRequestOf st) = .error e)
      ∨ (p.createResult (createRequestOf st) = .ok ()
          ∧ p.waitResult (waitRequestOf st) = .ok ()
          ∧ p.copyResult (copyRequestOf st) = .error e)) :
    (lambda_handler st p event context).1 = ⟨500, "Failed: " ++ e⟩ := by
  rcases h with h1 | ⟨h1, h2⟩ | ⟨h1, h2, h3⟩
  · simp [lambda_handler, h1]
  · simp [lambda_handler, h1, h2]
  · simp [lambda_handler, h1, h2, h3]

/-- Witness for C1 at a concrete input: a provider whose create call raises
"boom" yields the 500 wrapped response. -/
theorem C1_witness :
    (lambda_handler (moduleInit d0) pCreateFails () ()).1 = ⟨500, "Failed: " ++ "boom"⟩ :=
  C1_uniform_failure_wrapping (moduleInit d0) pCreateFails () () "boom" (Or.inl rfl)

/-- C2: for every invocation in which all three provider calls succeed,
`lambda_handler` returns statusCode 200 and the body contains the generated
snapshot name, the generated copy name, and the destination region string. -/
theorem C2_success_path {E C : Type} (st : ModuleState) (p : Provider)
    (event : E) (context : C)
    (h : p.createResult (createRequestOf st) = .ok ()
      ∧ p.waitResult (waitRequestOf st) = .ok ()
      ∧ p.copyResult (copyRequestOf st) = .ok ()) :
    (lambda_handler st p event context).1.statusCode = 200
    ∧ (∃ a b, (lambda_handler st p event context).1.body = a ++ st.snapshot_name ++ b)
    ∧ (∃ a b, (lambda_handler st p event context).1.body = a ++ st.copy_name ++ b)
    ∧ (∃ a b, (lambda_handler st p event context).1.body = a ++ destination_region ++ b) := by
  obtain ⟨h1, h2, h3⟩ := h
  simp only [lambda_handler, h1, h2, h3]
  refine ⟨by trivial,
    ⟨"Snapshot ",
      " created and copied as " ++ st.copy_name ++ " to " ++ destination_region, ?_⟩,
    ⟨"Snapshot " ++ st.snapshot_name ++ " created and copied as ",
      " to " ++ destination_region, ?_⟩,
    ⟨"Snapshot " ++ st.snapshot_name ++ " created and copied as " ++ st.copy_name ++ " to ",
      "", ?_⟩⟩
  all_goals simp [String.append_assoc]

/-- Witness for C2 at a concrete input: with an all-succeeding provider the
result is 200 and the body contains both names and the destination region. -/
theorem C2_witness :
    (lambda_handler (moduleInit d0) pAllOk () ()).1.statusCode = 200
    ∧ (∃ a b, (lambda_handler (moduleInit d0) pAllOk () ()).1.body
        = a ++ (moduleInit d0).snapshot_name ++ b)
    ∧ (∃ a b, (lambda_handler (moduleInit d0) pAllOk () ()).1.body
        = a ++ (moduleInit d0).copy_name ++ b)
    ∧ (∃ a b, (lambda_handler (moduleInit d0) pAllOk () ()).1.body
        = a ++ destination_region ++ b) :=
  C2_success_path (moduleInit d0) pAllOk () () ⟨rfl, rfl, rfl⟩

/-- C3: the copy-snapshot request is issued only if the wait call returned
normally; and whenever the wait raises, the invocation returns statusCode 500
and no copy-snapshot request appears in the trace. -/
theorem C3_sequential_dependency {E C : Type} (st : ModuleState) (p : Provider)
    (event : E) (context : C) :
    (copyIssued (lambda_handler st p event context).2 = true →
        p.waitResult (waitRequestOf st) = .ok ())
    ∧ ∀ e : String, p.waitResult (waitRequestOf st) = .error e →
        (lambda_handler st p event context).1.statusCode = 500
        ∧ copyIssued (lambda_handler st p event context).2 = false := by
  constructor
  · intro hcopy
    rcases hc : p.createResult (createRequestOf st) with e | u
    · simp [lambda_handler, hc, copyIssued, isCopyCall] at hcopy
    · rcases hw : p.waitResult (waitRequestOf st) with e | u'
      · simp [lambda_handler, hc, hw, copyIssued, isCopyCall] at hcopy
      · cases u'
        rfl
  · intro e hw
    rcases hc : p.createResult (createRequestOf st) with e' | u
    · simp [lambda_handler, hc, copyIssued, isCopyCall]
    · cases u
      simp [lambda_handler, hc, hw, copyIssued, isCopyCall]

/-- Witness for C3 at a concrete input: a provider whose wait raises "timeout"
yields statusCode 500 with no copy call in the trace. -/
theorem C3_witness :
    (lambda_handler (moduleInit d0) pWaitFails () ()).1.statusCode = 500
    ∧ copyIssued (lambda_handler (moduleInit d0) pWaitFails () ()).2 = false :=
  (C3_sequential_dependency (moduleInit d0) pWaitFails () ()).2 "timeout" rfl

/-- C4 (code bug): the claim says the timestamp is computed at invocation
start, with the names derived from that per-invocation timestamp.  In the code
the timestamp and both names are module-level, computed once at module load.
Evaluating at the failing input — one process whose module was loaded at `d0`,
invoked twice with start times 5 s and 65 s after load (passed as the
otherwise-ignored event) — both invocations issue the create request under the
identical module-load-derived name, so neither uses a name derived from its
own start time. -/
theorem C4_names_fixed_at_module_load :
    createdSnapshotName (lambda_handler (moduleInit d0) pAllOk (5 : Nat) ()).2
      = some ("rds-auto-snapshot-mainline-" ++ strftimeYmdHMS d0)
    ∧ createdSnapshotName (lambda_handler (moduleInit d0) pAllOk (65 : Nat) ()).2
      = some ("rds-auto-snapshot-mainline-" ++ strftimeYmdHMS d0)
    ∧ copyTargetName (lambda_handler (moduleInit d0) pAllOk (5 : Nat) ()).2
      = some ("rds-auto-copy-mainline-" ++ strftimeYmdHMS d0)
    ∧ copyTargetName (lambda_handler (moduleInit d0) pAllOk (65 : Nat) ()).2
      = some ("rds-auto-copy-mainline-" ++ strftimeYmdHMS d0) := by
  refine ⟨rfl, rfl, rfl, rfl⟩

/-- C5 (code bug): the claim says two invocations with start times ≥ 1 s apart
generate distinct snapshot and copy names.  In the code the names are fixed at
module load, so two invocations of one process separated by 60 s (start times
passed as the otherwise-ignored event) generate exactly equal names. -/
theorem C5_warm_invocations_collide :
    createdSnapshotName (lambda_handler (moduleInit d0) pAllOk (5 : Nat) ()).2
      = createdSnapshotName (lambda_handler (moduleInit d0) pAllOk (65 : Nat) ()).2
    ∧ copyTargetName (lambda_handler (moduleInit d0) pAllOk (5 : Nat) ()).2
      = copyTargetName (lambda_handler (moduleInit d0) pAllOk (65 : Nat) ()).2
    ∧ createdSnapshotName (lambda_handler (moduleInit d0) pAllOk (5 : Nat) ()).2
      = some "rds-auto-snapshot-mainline-20250101-000000"
    ∧ copyTargetName (lambda_handler (moduleInit d0) pAllOk (5 : Nat) ()).2
      = some "rds-auto-copy-mainline-20250101-000000" := by
  refine ⟨rfl, rfl, by decide, by decide⟩

/-- C6 counterexample: a fully successful invocation issues a copy-snapshot
request whose encryption key reference has ARN region component
"eu-central-1", which is not the configured destination region
("destination-region"); so the key does not belong to the configured
destination region. -/
theorem C6_counterexample :
    Call.copySnapshot (copyRequestOf (moduleInit d0))
        ∈ (lambda_handler (moduleInit d0) pAllOk () ()).2
    ∧ arnRegion (copyRequestOf (moduleInit d0)).kmsKeyId ≠ destination_region := by
  constructor
  · exact List.Mem.tail _ (List.Mem.tail _ (List.Mem.head _))
  · decide

/-- C6 amended: every copy-snapshot request issued by the workflow specifies
the single hard-coded encryption key reference `kms_key_id`, whose ARN region
component is "eu-central-1", independent of the configured destination
region. -/
theorem C6_amended_fixed_key {E C : Type} (st : ModuleState) (p : Provider)
    (event : E) (context : C) (r : CopyRequest)
    (h : Call.copySnapshot r ∈ (lambda_handler st p event context).2) :
    r.kmsKeyId = kms_key_id ∧ arnRegion r.kmsKeyId = "eu-central-1" := by
  have hr : r = copyRequestOf st := mem_copy_eq st p event context r h
  rw [hr]
  exact ⟨rfl, show arnRegion kms_key_id = "eu-central-1" by decide⟩

/-- Witness for the amended C6 at a concrete input: the copy request of a
successful run carries the hard-coded key, whose ARN region is eu-central-1. -/
theorem C6_amended_witness :
    (copyRequestOf (moduleInit d0)).kmsKeyId = kms_key_id
    ∧ arnRegion (copyRequestOf (moduleInit d0)).kmsKeyId = "eu-central-1" :=
  C6_amended_fixed_key (moduleInit d0) pAllOk () () (copyRequestOf (moduleInit d0))
    (List.Mem.tail _ (List.Mem.tail _ (List.Mem.head _)))

/-- C7: the wait request the handler issues fixes the polling interval at 30
and the maximum attempt count at 10; the provider-furnished waiter (modelled
from the spec) with a budget of 10 attempts terminates after at most 10 polls:
any success `.ok n` has `n ≤ 10` with the n-th poll reporting "available", a
status never reporting "available" in the first 10 polls yields the timeout
error, a status reporting "available" within 10 polls yields success within
the budget, and a provider whose wait call raises "timeout" makes the handler
return the 500 failure response. -/
theorem C7_wait_polling {E C : Type} (st : ModuleState) (event : E) (context : C) :
    (waitRequestOf st).delay = 30
    ∧ (waitRequestOf st).maxAttempts = 10
    ∧ (∀ status : Nat → String, ∀ n, pollUntilAvailable status 10 = .ok n →
        n ≤ 10 ∧ status (n - 1) = "available")
    ∧ (∀ status : Nat → String, (∀ i, i < 10 → status i ≠ "available") →
        pollUntilAvailable status 10 = .error "timeout")
    ∧ (∀ status : Nat → String, (∃ i, i < 10 ∧ status i = "available") →
        ∃ n, n ≤ 10 ∧ pollUntilAvailable status 10 = .ok n)
    ∧ (∀ p : Provider, p.createResult (createRequestOf st) = .ok () →
        p.waitResult (waitRequestOf st) = .error "timeout" →
        (lambda_handler st p event context).1 = ⟨500, "Failed: " ++ "timeout"⟩) := by
  refine ⟨rfl, rfl, ?_, ?_, ?_, ?_⟩
  · intro status n h
    simpa using pollFrom_ok_bound status 10 0 n h
  · intro status h
    exact pollFrom_timeout status 10 0 fun j _ hj => h j (by omega)
  · intro status h
    obtain ⟨i, hi, hav⟩ := h
    simpa using pollFrom_success status 10 0 ⟨i, by omega, by omega, hav⟩
  · intro p h1 h2
    simp [lambda_handler, h1, h2]

/-- Witness for C7 at concrete inputs: the issued wait config is (30, 10); a
status stuck at "creating" times out; a status available at the fourth poll
succeeds within budget; and a wait raising "timeout" yields the 500 failure. -/
theorem C7_witness :
    (waitRequestOf (moduleInit d0)).delay = 30
    ∧ (waitRequestOf (moduleInit d0)).maxAttempts = 10
    ∧ pollUntilAvailable (fun _ => "creating") 10 = .error "timeout"
    ∧ (∃ n, n ≤ 10
        ∧ pollUntilAvailable (fun i => if i = 3 then "available" else "creating") 10 = .ok n)
    ∧ (lambda_handler (moduleInit d0) pWaitFails () ()).1 = ⟨500, "Failed: " ++ "timeout"⟩ := by
  have h := C7_wait_polling (moduleInit d0) () ()
  refine ⟨h.1, h.2.1, ?_, ?_, ?_⟩
  · exact h.2.2.2.1 (fun _ => "creating") fun i _ =>
      show "creating" ≠ "available" by decide
  · exact h.2.2.2.2.1 (fun i => if i = 3 then "available" else "creating")
      ⟨3, by decide, by decide⟩
  · exact h.2.2.2.2.2 pWaitFails rfl rfl

/-- C8: every copy-snapshot request issued carries as source the reference
string built by concatenating the ARN skeleton with the source region, the
account identifier, the resource type "snapshot" and the snapshot name, and it
explicitly declares the source region. -/
theorem C8_constructed_source_reference {E C : Type} (st : ModuleState) (p : Provider)
    (event : E) (context : C) (r : CopyRequest)
    (h : Call.copySnapshot r ∈ (lambda_handler st p event context).2) :
    r.sourceDBSnapshotIdentifier
      = "arn:aws:rds:" ++ source_region ++ ":" ++ account_id ++ ":snapshot:" ++ st.snapshot_name
    ∧ r.sourceRegion = source_region := by
  have hr : r = copyRequestOf st := mem_copy_eq st p event context r h
  rw [hr]
  exact ⟨rfl, rfl⟩

/-- Witness for C8 at a concrete input: the copy request of a successful run
has the constructed ARN as its source and declares the source region. -/
theorem C8_witness :
    (copyRequestOf (moduleInit d0)).sourceDBSnapshotIdentifier
      = "arn:aws:rds:" ++ source_region ++ ":" ++ account_id ++ ":snapshot:"
          ++ (moduleInit d0).snapshot_name
    ∧ (copyRequestOf (moduleInit d0)).sourceRegion = source_region :=
  C8_constructed_source_reference (moduleInit d0) pAllOk () ()
    (copyRequestOf (moduleInit d0))
    (List.Mem.tail _ (List.Mem.tail _ (List.Mem.head _)))

/-- C9: the event payload and the context object are wholly ignored: with the
same module state and provider, any two invocations differing only in event
and context (even in their types) return identical results and traces. -/
theorem C9_event_context_ignored {E1 A1 E2 A2 : Type} (st : ModuleState)
    (p : Provider) (e1 : E1) (c1 : A1) (e2 : E2) (c2 : A2) :
    lambda_handler st p e1 c1 = lambda_handler st p e2 c2 := rfl

/-- C10: for every input and every provider behaviour, `lambda_handler` is a
total function returning a response record (it never propagates an exception),
and the statusCode of that response is either 200 or 500. -/
theorem C10_always_returns_200_or_500 {E C : Type} (st : ModuleState) (p : Provider)
    (event : E) (context : C) :
    (lambda_handler st p event context).1.statusCode = 200
    ∨ (lambda_handler st p event context).1.statusCode = 500 := by
  rcases hc : p.createResult (createRequestOf st) with e | u
  · right; simp [lambda_handler, hc]
  · rcases hw : p.waitResult (waitRequestOf st) with e | u'
    · right; simp [lambda_handler, hc, hw]
    · rcases hcp : p.copyResult (copyRequestOf st) with e | u''
      · right; simp [lambda_handler, hc, hw, hcp]
      · left; simp [lambda_handler, hc, hw, hcp]

end AutoDbSnapshot
